import Mathlib

/-!
Shallow embedding of `windmillaipy` (files `windmillaipy/client.py`,
`windmillaipy/client_test.py`).

The library is a thin synchronous HTTP wrapper: every public method of
`WindmillClient` and `WorkUnit` builds one JSON / query-parameter /
multipart request, hands it to the `requests` transport, and inspects the
response.  We embed each method as a pure function from the instance, the
method's arguments and the transport's response to an `Effect`: the list
of HTTP requests the method issued, the state of the instance after the
call (transcribing every assignment to `self`; the source has none outside
`__init__`), and the method's outcome (`Except PyError α`, where raising a
Python exception is `.error`).

JSON values are modelled by the inductive `JValue` (numbers restricted to
integers, which covers every value the library itself ever places in or
reads from a request).  Python dictionaries are association lists in
insertion order, matching how `requests` serialises them and how the
repository's own tests compare them.
-/

/-- A JSON value, as passed to `requests.post(url, json=...)` /
`requests.get(url, params=...)` and as returned by `response.json()`.
Objects are association lists in Python dict insertion order. -/
inductive JValue where
  | jNull : JValue
  | jBool : Bool → JValue
  | jNum : Int → JValue
  | jStr : String → JValue
  | jArr : List JValue → JValue
  | jObj : List (String × JValue) → JValue

/-- Python truthiness (`if x:`) of a JSON value: `None`, `False`, `0`,
empty string, empty list and empty dict are falsy, everything else truthy. -/
def jTruthy : JValue → Bool
  | .jNull => false
  | .jBool b => b
  | .jNum n => n != 0
  | .jStr s => s != ""
  | .jArr xs => !xs.isEmpty
  | .jObj fs => !fs.isEmpty

/-- Dictionary lookup `v[key]` on a JSON object, `none` when `v` is not an
object or the key is absent (Python would raise `KeyError`/`TypeError`). -/
def jGet (v : JValue) (key : String) : Option JValue :=
  match v with
  | .jObj fields => fields.lookup key
  | _ => none

mutual
/-- `json.dumps` with Python's default separators (`", "` and `": "`).
The library only ever serialises flat objects of plain strings and
integers (the `meta` part of `create_artifact`), so string escaping is
not modelled. -/
def jdump : JValue → String
  | .jNull => "null"
  | .jBool true => "true"
  | .jBool false => "false"
  | .jNum n => toString n
  | .jStr s => "\"" ++ s ++ "\""
  | .jArr xs => "[" ++ jdumpList xs ++ "]"
  | .jObj fs => "\x7b" ++ jdumpObj fs ++ "\x7d"

/-- Comma-separated serialisation of a JSON array's elements. -/
def jdumpList : List JValue → String
  | [] => ""
  | [x] => jdump x
  | x :: xs => jdump x ++ ", " ++ jdumpList xs

/-- Comma-separated serialisation of a JSON object's fields. -/
def jdumpObj : List (String × JValue) → String
  | [] => ""
  | [(k, v)] => "\"" ++ k ++ "\": " ++ jdump v
  | (k, v) :: fs => "\"" ++ k ++ "\": " ++ jdump v ++ ", " ++ jdumpObj fs
end

/-- One HTTP request handed to the `requests` transport:
`requests.post(url, json=body)`, `requests.get(url, params=params)`, or
`requests.post(url, files=parts)` (multipart). -/
inductive HttpRequest where
  | post : String → List (String × JValue) → HttpRequest
  | get : String → List (String × JValue) → HttpRequest
  | postMultipart : String → List (String × String) → HttpRequest

/-- The transport's response, the parts of `requests.Response` the library
reads: `r.ok` (status < 400), `r.text` (raw body) and `r.json()`. -/
structure HttpResponse where
  ok : Bool
  text : String
  json : JValue

/-- A Python exception escaping a library call.  `windmillClientError msg`
is the library's own `WindmillClientError(msg)`; `nameError n` is Python's
`NameError` for an unbound name `n`; `keyError k` a missing dictionary
key; `typeError` stands for a response value whose shape the embedding
cannot type (a descriptor whose `xid`/`wid` is not a string/integer —
dynamically typed Python would silently store such a value, no claim
depends on that corner). -/
inductive PyError where
  | windmillClientError : String → PyError
  | nameError : String → PyError
  | keyError : String → PyError
  | typeError : String → PyError

/-- The observable effect of one method call: the requests it sent (in
order), the state of `self` after the call (every assignment to a field of
`self` in the method body is transcribed here; no method of the source
assigns any, so each method returns its receiver unchanged), and its
outcome. -/
structure Effect (σ : Type) (α : Type) where
  requests : List HttpRequest
  post : σ
  value : Except PyError α

/-- `_raise_if_error(r)`: raise `WindmillClientError(r.text)` when the
response is not ok. -/
def _raise_if_error (r : HttpResponse) : Except PyError Unit :=
  if !r.ok then .error (.windmillClientError r.text) else .ok ()

/-- The names bound at module level in `client.py` by its import
statements (`import json`, `import io`, `import os`, `import requests`,
`import tarfile`; `from typing import ...` binds `List` and `Union` only).
`warnings` is absent. -/
def moduleImportedNames : List String :=
  ["json", "io", "os", "requests", "tarfile", "List", "Union"]

/-- `WindmillClient`: `{api_key, endpoint}`, set once in `__init__`. -/
structure WindmillClient where
  api_key : String
  endpoint : String

/-- `WorkUnit`: `{xid, wid, api_key, endpoint}`, set once in `__init__`. -/
structure WorkUnit where
  xid : String
  wid : Int
  api_key : String
  endpoint : String

/-- The result of `create_experiment`: Python returns either a single
`WorkUnit` (when the server sent exactly one descriptor) or a list. -/
inductive CreateResult where
  | single : WorkUnit → CreateResult
  | many : List WorkUnit → CreateResult

namespace WindmillClient

/-- The JSON body `request` built by `create_experiment`: always
`api_key` and `name`; `tags` only when `if tags:` is truthy (non-empty
list); `parameters` only when `if parameters:` is truthy (not `None` and
non-empty). -/
def create_experiment_request (c : WindmillClient) (experiment_name : String)
    (tags : List String) (parameters : Option (List JValue)) :
    List (String × JValue) :=
  [("api_key", JValue.jStr c.api_key), ("name", JValue.jStr experiment_name)]
    ++ (if tags.isEmpty then [] else [("tags", JValue.jArr (tags.map JValue.jStr))])
    ++ (match parameters with
        | some ps => if ps.isEmpty then [] else [("parameters", JValue.jArr ps)]
        | none => [])

/-- `WorkUnit(wu['xid'], wu['wid'], self.api_key, self.endpoint)` for one
descriptor `wu` of the server's `work_units` array. -/
def parse_work_unit (c : WindmillClient) (v : JValue) : Except PyError WorkUnit :=
  match jGet v "xid", jGet v "wid" with
  | some (.jStr x), some (.jNum w) => .ok ⟨x, w, c.api_key, c.endpoint⟩
  | none, _ => .error (.keyError "xid")
  | _, none => .error (.keyError "wid")
  | _, _ => .error (.typeError "work unit descriptor")

/-- The list comprehension over `response['work_units']`. -/
def parse_work_units (c : WindmillClient) : List JValue → Except PyError (List WorkUnit)
  | [] => .ok []
  | v :: vs => do
    let wu ← parse_work_unit c v
    let rest ← parse_work_units c vs
    pure (wu :: rest)

/-- `WindmillClient.create_experiment(experiment_name, tags=[], parameters=None)`:
POST the request body to `<endpoint>/api/v0/create_experiment`, raise on a
non-ok response, then return the single `WorkUnit` when
`len(response['work_units']) == 1` and the list of `WorkUnit`s otherwise. -/
def create_experiment (c : WindmillClient) (experiment_name : String)
    (tags : List String) (parameters : Option (List JValue))
    (response : HttpResponse) : Effect WindmillClient CreateResult :=
  let url := c.endpoint ++ "/api/v0/create_experiment"
  { requests := [HttpRequest.post url (create_experiment_request c experiment_name tags parameters)]
    post := c
    value :=
      match _raise_if_error response with
      | .error e => .error e
      | .ok _ =>
        match jGet response.json "work_units" with
        | some (.jArr wus) =>
          match wus with
          | [w] => (parse_work_unit c w).map CreateResult.single
          | ws => (parse_work_units c ws).map CreateResult.many
        | some _ => .error (.typeError "work_units")
        | none => .error (.keyError "work_units") }

/-- The query parameters `payload` of `get_work_unit`'s existence check. -/
def get_work_unit_payload (c : WindmillClient) (xid : String) (wid : Int) :
    List (String × JValue) :=
  [("api_key", JValue.jStr c.api_key), ("xid", JValue.jStr xid),
   ("wid", JValue.jNum wid)]

/-- `WindmillClient.get_work_unit(xid, wid, verify_exists=True)`: with
verification off, construct the handle locally with no request; otherwise
GET `<endpoint>/api/v0/verify_work_unit_exists`, raise on a non-ok
response, raise a descriptive `WindmillClientError` when
`response.json()['exists']` is falsy, and return the handle otherwise. -/
def get_work_unit (c : WindmillClient) (xid : String) (wid : Int)
    (verify_exists : Bool) (response : HttpResponse) :
    Effect WindmillClient WorkUnit :=
  if !verify_exists then
    { requests := [], post := c
      value := .ok ⟨xid, wid, c.api_key, c.endpoint⟩ }
  else
    let url := c.endpoint ++ "/api/v0/verify_work_unit_exists"
    { requests := [HttpRequest.get url (get_work_unit_payload c xid wid)]
      post := c
      value :=
        match _raise_if_error response with
        | .error e => .error e
        | .ok _ =>
          match jGet response.json "exists" with
          | none => .error (.keyError "exists")
          | some v =>
            if !jTruthy v then
              .error (.windmillClientError
                ("A work unit corresponding to " ++ xid ++ "/" ++ toString wid
                  ++ " does not exist."))
            else .ok ⟨xid, wid, c.api_key, c.endpoint⟩ }

end WindmillClient

namespace WorkUnit

/-- The `{api_key, xid, wid}` payload shared by `get_parameters`,
`complete` and `get_work_unit`'s check (built separately in each method;
identical shape). -/
def identity_payload (wu : WorkUnit) : List (String × JValue) :=
  [("api_key", JValue.jStr wu.api_key), ("xid", JValue.jStr wu.xid),
   ("wid", JValue.jNum wu.wid)]

/-- `WorkUnit.get_parameters()`: GET
`<endpoint>/api/v0/get_work_unit_parameters` with `{api_key, xid, wid}`,
raise on a non-ok response, return `response.json()` unchanged. -/
def get_parameters (wu : WorkUnit) (response : HttpResponse) :
    Effect WorkUnit JValue :=
  { requests := [HttpRequest.get (wu.endpoint ++ "/api/v0/get_work_unit_parameters")
      (identity_payload wu)]
    post := wu
    value :=
      match _raise_if_error response with
      | .error e => .error e
      | .ok _ => .ok response.json }

/-- `WorkUnit.add_diary_entry(entry)`: POST `{api_key, xid, entry}` (note:
no `wid`) to `<endpoint>/api/v0/add_diary_entry`, raise on a non-ok
response, return nothing. -/
def add_diary_entry (wu : WorkUnit) (entry : String) (response : HttpResponse) :
    Effect WorkUnit Unit :=
  { requests := [HttpRequest.post (wu.endpoint ++ "/api/v0/add_diary_entry")
      [("api_key", JValue.jStr wu.api_key), ("xid", JValue.jStr wu.xid),
       ("entry", JValue.jStr entry)]]
    post := wu
    value := _raise_if_error response }

/-- `WorkUnit.record_measurements(measurements)`: POST
`{api_key, xid, wid, measurements}` to `<endpoint>/api/v0/add_measurements`. -/
def record_measurements (wu : WorkUnit) (measurements : JValue)
    (response : HttpResponse) : Effect WorkUnit Unit :=
  { requests := [HttpRequest.post (wu.endpoint ++ "/api/v0/add_measurements")
      [("api_key", JValue.jStr wu.api_key), ("xid", JValue.jStr wu.xid),
       ("wid", JValue.jNum wu.wid), ("measurements", measurements)]]
    post := wu
    value := _raise_if_error response }

/-- `WorkUnit.complete()`: POST `{api_key, xid, wid}` to
`<endpoint>/api/v0/complete_experiment`. -/
def complete (wu : WorkUnit) (response : HttpResponse) : Effect WorkUnit Unit :=
  { requests := [HttpRequest.post (wu.endpoint ++ "/api/v0/complete_experiment")
      (identity_payload wu)]
    post := wu
    value := _raise_if_error response }

/-- `WorkUnit.complete_experiment()`, the deprecated alias.  Its first
statement is `warnings.warn(...)`, but `client.py` never imports
`warnings` (see `moduleImportedNames`), so evaluating the name raises
`NameError` before `self.complete()` is reached: no request is sent. -/
def complete_experiment (wu : WorkUnit) (response : HttpResponse) :
    Effect WorkUnit Unit :=
  if moduleImportedNames.contains "warnings" then
    complete wu response
  else
    { requests := [], post := wu, value := .error (.nameError "warnings") }

/-- The `{api_key, xid, wid, signal}` body shared by `register_signal`,
`activate_signal` and `deactivate_signal`. -/
def signal_request (wu : WorkUnit) (signal : String) : List (String × JValue) :=
  [("api_key", JValue.jStr wu.api_key), ("xid", JValue.jStr wu.xid),
   ("wid", JValue.jNum wu.wid), ("signal", JValue.jStr signal)]

/-- `WorkUnit.register_signal(signal)`: POST to
`<endpoint>/api/v0/register_signal`. -/
def register_signal (wu : WorkUnit) (signal : String) (response : HttpResponse) :
    Effect WorkUnit Unit :=
  { requests := [HttpRequest.post (wu.endpoint ++ "/api/v0/register_signal")
      (signal_request wu signal)]
    post := wu
    value := _raise_if_error response }

/-- `WorkUnit.activate_signal(signal)`: POST to
`<endpoint>/api/v0/activate_signal`. -/
def activate_signal (wu : WorkUnit) (signal : String) (response : HttpResponse) :
    Effect WorkUnit Unit :=
  { requests := [HttpRequest.post (wu.endpoint ++ "/api/v0/activate_signal")
      (signal_request wu signal)]
    post := wu
    value := _raise_if_error response }

/-- `WorkUnit.deactivate_signal(signal)`: POST to
`<endpoint>/api/v0/deactivate_signal`. -/
def deactivate_signal (wu : WorkUnit) (signal : String) (response : HttpResponse) :
    Effect WorkUnit Unit :=
  { requests := [HttpRequest.post (wu.endpoint ++ "/api/v0/deactivate_signal")
      (signal_request wu signal)]
    post := wu
    value := _raise_if_error response }

/-- `WorkUnit.check_signal_active(signal, deactivate=False)`: GET
`<endpoint>/api/v0/check_signal_active` with
`{api_key, xid, wid, signal, clear: deactivate}`, raise on a non-ok
response, return `response.json()['active']`. -/
def check_signal_active (wu : WorkUnit) (signal : String) (deactivate : Bool)
    (response : HttpResponse) : Effect WorkUnit JValue :=
  { requests := [HttpRequest.get (wu.endpoint ++ "/api/v0/check_signal_active")
      (signal_request wu signal ++ [("clear", JValue.jBool deactivate)])]
    post := wu
    value :=
      match _raise_if_error response with
      | .error e => .error e
      | .ok _ =>
        match jGet response.json "active" with
        | some v => .ok v
        | none => .error (.keyError "active") }

/-- `WorkUnit.create_artifact(filename, contents)`: multipart POST to
`<endpoint>/api/v0/create_artifact?upload-type=multipart` with parts
`meta` (the JSON dump of `{xid, wid, filename}`) and `contents`.  The
request carries no `api_key`. -/
def create_artifact (wu : WorkUnit) (filename : String) (contents : String)
    (response : HttpResponse) : Effect WorkUnit Unit :=
  { requests := [HttpRequest.postMultipart
      (wu.endpoint ++ "/api/v0/create_artifact?upload-type=multipart")
      [("meta", jdump (JValue.jObj
          [("xid", JValue.jStr wu.xid), ("wid", JValue.jNum wu.wid),
           ("filename", JValue.jStr filename)])),
       ("contents", contents)]]
    post := wu
    value := _raise_if_error response }

/-- `WorkUnit.create_artifact_from_file(filename, local_filepath)`:
reads the file from disk and delegates to `create_artifact`; the disk
read is modelled by taking the file's contents as an argument. -/
def create_artifact_from_file (wu : WorkUnit) (filename : String)
    (file_contents : String) (response : HttpResponse) : Effect WorkUnit Unit :=
  create_artifact wu filename file_contents response

/-- `WorkUnit.create_artifact_from_directory(filename, local_directory_path)`:
archives the directory with `tarfile` and delegates to `create_artifact`;
the archiving step is modelled by taking the archive's bytes as an
argument. -/
def create_artifact_from_directory (wu : WorkUnit) (filename : String)
    (archive_bytes : String) (response : HttpResponse) : Effect WorkUnit Unit :=
  create_artifact wu filename archive_bytes response

end WorkUnit

/-- A well-typed work-unit descriptor `{xid, wid}` as the server returns it
inside `work_units`; used to quantify over server responses in claims. -/
def work_unit_descr (p : String × Int) : JValue :=
  JValue.jObj [("xid", JValue.jStr p.1), ("wid", JValue.jNum p.2)]

/-- The `WorkUnit` the client builds from a descriptor: the descriptor's
identifiers plus the client's own credentials. -/
def work_unit_of (c : WindmillClient) (p : String × Int) : WorkUnit :=
  ⟨p.1, p.2, c.api_key, c.endpoint⟩

/-- Is `p` a field named `api_key` holding the string `key`? -/
def is_api_key_field (key : String) (p : String × JValue) : Bool :=
  p.1 == "api_key" &&
    (match p.2 with
     | .jStr s => s == key
     | _ => false)

/-- Does the request carry `key` under the field name `api_key`: in the
JSON body of a POST, in the query parameters of a GET, or as a part of a
multipart POST? -/
def carries_api_key (key : String) : HttpRequest → Bool
  | .post _ body => body.any (is_api_key_field key)
  | .get _ params => params.any (is_api_key_field key)
  | .postMultipart _ files => files.any (fun p => p.1 == "api_key")

theorem except_bind_ok {α β : Type} (a : α) (f : α → Except PyError β) :
    (Except.ok a >>= f) = f a := rfl

theorem except_bind_error {α β : Type} (e : PyError) (f : α → Except PyError β) :
    ((Except.error e : Except PyError α) >>= f) = Except.error e := rfl

theorem except_map_ok {α β : Type} (f : α → β) (a : α) :
    Except.map f (Except.ok a : Except PyError α) = Except.ok (f a) := rfl

theorem except_map_error {α β : Type} (f : α → β) (e : PyError) :
    Except.map f (Except.error e : Except PyError α) = Except.error e := rfl

theorem parse_work_unit_descr (c : WindmillClient) (p : String × Int) :
    WindmillClient.parse_work_unit c (work_unit_descr p) = .ok (work_unit_of c p) := rfl

theorem parse_work_units_descr (c : WindmillClient) (ps : List (String × Int)) :
    WindmillClient.parse_work_units c (ps.map work_unit_descr)
      = .ok (ps.map (work_unit_of c)) := by
  induction ps with
  | nil => rfl
  | cons p ps ih =>
    simp [WindmillClient.parse_work_units, parse_work_unit_descr, ih,
      except_bind_ok]

theorem parse_work_unit_not_client_error (c : WindmillClient) (v : JValue)
    (m : String) :
    WindmillClient.parse_work_unit c v ≠ .error (.windmillClientError m) := by
  unfold WindmillClient.parse_work_unit
  split <;> simp

theorem parse_work_units_not_client_error (c : WindmillClient) (l : List JValue)
    (m : String) :
    WindmillClient.parse_work_units c l ≠ .error (.windmillClientError m) := by
  induction l with
  | nil => simp [WindmillClient.parse_work_units]
  | cons v vs ih =>
    rw [WindmillClient.parse_work_units]
    cases hv : WindmillClient.parse_work_unit c v with
    | error e =>
      rw [except_bind_error]
      intro hcontra
      rw [Except.error.injEq] at hcontra
      exact parse_work_unit_not_client_error c v m (by rw [hv, hcontra])
    | ok wu =>
      rw [except_bind_ok]
      cases hvs : WindmillClient.parse_work_units c vs with
      | error e =>
        rw [except_bind_error]
        intro hcontra
        rw [Except.error.injEq] at hcontra
        exact ih (by rw [hvs, hcontra])
      | ok rest => rw [except_bind_ok]; simp [pure, Except.pure]

/-- C7: `get_work_unit(xid, wid, verify_exists=False)` issues no network
request and returns a `WorkUnit` whose `xid`, `wid`, `api_key` and
`endpoint` are exactly the given identifiers and the client's
credentials, for every `xid`, `wid` and transport state. -/
theorem C7_get_work_unit_no_verify (c : WindmillClient) (xid : String)
    (wid : Int) (r : HttpResponse) :
    c.get_work_unit xid wid false r
      = { requests := [], post := c
          value := .ok ⟨xid, wid, c.api_key, c.endpoint⟩ } := rfl

/-- C6: `create_experiment(name)` with no tags and no parameters sends one
POST to `<endpoint>/api/v0/create_experiment` whose JSON body holds
exactly the two fields `api_key` and `name`. -/
theorem C6_create_experiment_minimal_request (c : WindmillClient)
    (experiment_name : String) (r : HttpResponse) :
    (c.create_experiment experiment_name [] none r).requests
      = [HttpRequest.post (c.endpoint ++ "/api/v0/create_experiment")
          [("api_key", JValue.jStr c.api_key),
           ("name", JValue.jStr experiment_name)]] := rfl

/-- C3 (code bug, evaluated at the failing input): `complete()` sends the
documented POST `{api_key, xid, wid}` to
`<endpoint>/api/v0/complete_experiment`, but the deprecated alias
`complete_experiment()` raises `NameError` for the unimported name
`warnings` before sending anything, so it never produces the identical
request the claim describes. -/
theorem C3_complete_alias_raises_name_error :
    WorkUnit.complete ⟨"xid", 123, "key", "endpoint"⟩ ⟨true, "", JValue.jObj []⟩
      = { requests := [HttpRequest.post "endpoint/api/v0/complete_experiment"
            [("api_key", JValue.jStr "key"), ("xid", JValue.jStr "xid"),
             ("wid", JValue.jNum 123)]]
          post := ⟨"xid", 123, "key", "endpoint"⟩
          value := .ok () }
    ∧ WorkUnit.complete_experiment ⟨"xid", 123, "key", "endpoint"⟩
        ⟨true, "", JValue.jObj []⟩
      = { requests := [], post := ⟨"xid", 123, "key", "endpoint"⟩
          value := .error (.nameError "warnings") } :=
  ⟨rfl, rfl⟩

/-- C2 counterexample: the multipart request of
`create_artifact("f.txt", "data")` on `WorkUnit("xid", 25, "key",
"endpoint")` consists exactly of the parts `meta` (whose JSON dump holds
only `xid`, `wid`, `filename`) and `contents` — and no part of it carries
the instance's `api_key`, refuting the claim for this operation. -/
theorem C2_create_artifact_lacks_api_key :
    (WorkUnit.create_artifact ⟨"xid", 25, "key", "endpoint"⟩ "f.txt" "data"
        ⟨true, "", JValue.jObj []⟩).requests
      = [HttpRequest.postMultipart
          "endpoint/api/v0/create_artifact?upload-type=multipart"
          [("meta", "\x7b\"xid\": \"xid\", \"wid\": 25, \"filename\": \"f.txt\"\x7d"),
           ("contents", "data")]]
    ∧ carries_api_key "key"
        (HttpRequest.postMultipart
          "endpoint/api/v0/create_artifact?upload-type=multipart"
          [("meta", "\x7b\"xid\": \"xid\", \"wid\": 25, \"filename\": \"f.txt\"\x7d"),
           ("contents", "data")])
      = false :=
  ⟨rfl, rfl⟩

/-- C2 (amended): every public operation that issues an HTTP request
carries the instance's `api_key` as a field — JSON body for POST, query
parameters for GET — except `create_artifact`, whose multipart request
carries no `api_key` field at all. -/
theorem C2_api_key_field_coverage (c : WindmillClient) (wu : WorkUnit)
    (experiment_name : String) (tags : List String)
    (parameters : Option (List JValue)) (xid : String) (wid : Int)
    (entry : String) (measurements : JValue) (signal : String)
    (deactivate : Bool) (filename contents : String) (r : HttpResponse) :
    (c.create_experiment experiment_name tags parameters r).requests.all
        (carries_api_key c.api_key) = true
    ∧ (c.get_work_unit xid wid true r).requests.all
        (carries_api_key c.api_key) = true
    ∧ (wu.get_parameters r).requests.all (carries_api_key wu.api_key) = true
    ∧ (wu.add_diary_entry entry r).requests.all
        (carries_api_key wu.api_key) = true
    ∧ (wu.record_measurements measurements r).requests.all
        (carries_api_key wu.api_key) = true
    ∧ (wu.complete r).requests.all (carries_api_key wu.api_key) = true
    ∧ (wu.register_signal signal r).requests.all
        (carries_api_key wu.api_key) = true
    ∧ (wu.activate_signal signal r).requests.all
        (carries_api_key wu.api_key) = true
    ∧ (wu.deactivate_signal signal r).requests.all
        (carries_api_key wu.api_key) = true
    ∧ (wu.check_signal_active signal deactivate r).requests.all
        (carries_api_key wu.api_key) = true
    ∧ (wu.create_artifact filename contents r).requests.all
        (fun req => !carries_api_key wu.api_key req) = true := by
  refine ⟨?_, ?_, ?_, ?_, ?_, ?_, ?_, ?_, ?_, ?_, ?_⟩ <;>
    simp [WindmillClient.create_experiment,
      WindmillClient.create_experiment_request, WindmillClient.get_work_unit,
      WindmillClient.get_work_unit_payload, WorkUnit.get_parameters,
      WorkUnit.identity_payload, WorkUnit.add_diary_entry,
      WorkUnit.record_measurements, WorkUnit.complete,
      WorkUnit.register_signal, WorkUnit.activate_signal,
      WorkUnit.deactivate_signal, WorkUnit.signal_request,
      WorkUnit.check_signal_active, WorkUnit.create_artifact,
      carries_api_key, is_api_key_field]

/-- C10: `create_experiment` with an explicitly empty tags list or an
explicitly empty parameters list produces exactly the call made when the
arguments are not passed (defaults `tags=[]`, `parameters=None`), and the
request body holds a `tags` / `parameters` field exactly when the
corresponding value is non-empty. -/
theorem C10_create_experiment_optional_fields (c : WindmillClient)
    (experiment_name : String) (tags : List String)
    (parameters : Option (List JValue)) (r : HttpResponse) :
    c.create_experiment experiment_name [] (some []) r
      = c.create_experiment experiment_name [] none r
    ∧ (c.create_experiment_request experiment_name tags parameters).lookup "tags"
      = (if tags.isEmpty then none
         else some (JValue.jArr (tags.map JValue.jStr)))
    ∧ (c.create_experiment_request experiment_name tags parameters).lookup
        "parameters"
      = (match parameters with
         | some ps => if ps.isEmpty then none else some (JValue.jArr ps)
         | none => none) := by
  refine ⟨rfl, ?_, ?_⟩ <;>
    rcases tags with _ | ⟨t, ts⟩ <;>
    rcases parameters with _ | ⟨_ | ⟨p, ps⟩⟩ <;>
    rfl

/-- C5: `get_work_unit(xid, wid)` with verification enabled, on an ok
response: when the server reports `exists: False` the call raises
`WindmillClientError` with a message naming the `xid`/`wid` pair (and
returns no `WorkUnit`); when it reports `exists: True` the call returns
the `WorkUnit` with the given `xid` and `wid` and the client's
credentials. -/
theorem C5_get_work_unit_verify_outcome (c : WindmillClient) (xid : String)
    (wid : Int) (r : HttpResponse) (hok : r.ok = true) :
    (jGet r.json "exists" = some (JValue.jBool false) →
      (c.get_work_unit xid wid true r).value
        = .error (.windmillClientError
            ("A work unit corresponding to " ++ xid ++ "/" ++ toString wid
              ++ " does not exist.")))
    ∧ (jGet r.json "exists" = some (JValue.jBool true) →
      (c.get_work_unit xid wid true r).value
        = .ok ⟨xid, wid, c.api_key, c.endpoint⟩) := by
  constructor <;> intro hex <;>
    simp [WindmillClient.get_work_unit, _raise_if_error, hok, hex, jTruthy]

theorem C5_get_work_unit_verify_outcome_witness :
    ((WindmillClient.mk "key" "endpoint").get_work_unit "some xid" 123 true
        ⟨true, "", JValue.jObj [("exists", JValue.jBool false)]⟩).value
      = .error (.windmillClientError
          "A work unit corresponding to some xid/123 does not exist.")
    ∧ ((WindmillClient.mk "key" "endpoint").get_work_unit "some xid" 123 true
        ⟨true, "", JValue.jObj [("exists", JValue.jBool true)]⟩).value
      = .ok ⟨"some xid", 123, "key", "endpoint"⟩ :=
  ⟨(C5_get_work_unit_verify_outcome (WindmillClient.mk "key" "endpoint")
      "some xid" 123 ⟨true, "", JValue.jObj [("exists", JValue.jBool false)]⟩
      rfl).1 rfl,
   (C5_get_work_unit_verify_outcome (WindmillClient.mk "key" "endpoint")
      "some xid" 123 ⟨true, "", JValue.jObj [("exists", JValue.jBool true)]⟩
      rfl).2 rfl⟩

/-- C1: on an ok response whose `work_units` array holds the descriptors
`descrs`, `create_experiment` returns the single `WorkUnit` (not a
one-element list) when there is exactly one descriptor, and the list of
`WorkUnit`s in server order when there are more than one; each returned
unit carries the descriptor's `xid` and `wid` and the client's `api_key`
and `endpoint`. -/
theorem C1_create_experiment_result_shape (c : WindmillClient)
    (experiment_name : String) (tags : List String)
    (parameters : Option (List JValue)) (r : HttpResponse)
    (descrs : List (String × Int)) (hok : r.ok = true)
    (hwu : jGet r.json "work_units"
      = some (JValue.jArr (descrs.map work_unit_descr))) :
    (∀ p, descrs = [p] →
      (c.create_experiment experiment_name tags parameters r).value
        = .ok (CreateResult.single (work_unit_of c p)))
    ∧ (1 < descrs.length →
      (c.create_experiment experiment_name tags parameters r).value
        = .ok (CreateResult.many (descrs.map (work_unit_of c)))) := by
  constructor
  · rintro p rfl
    simp [WindmillClient.create_experiment, _raise_if_error, hok, hwu,
      parse_work_unit_descr, except_map_ok]
  · intro hlen
    rcases descrs with _ | ⟨p, _ | ⟨q, rest⟩⟩
    · simp at hlen
    · simp at hlen
    · have hparse := parse_work_units_descr c (p :: q :: rest)
      simp only [List.map] at hparse hwu ⊢
      simp [WindmillClient.create_experiment, _raise_if_error, hok, hwu,
        hparse, except_map_ok]

theorem C1_create_experiment_result_shape_witness :
    ((WindmillClient.mk "key" "endpoint").create_experiment "some experiment"
        [] none
        ⟨true, "", JValue.jObj [("work_units", JValue.jArr
          [work_unit_descr ("asdf", 1), work_unit_descr ("asdf", 2),
           work_unit_descr ("asdf", 3)])]⟩).value
      = .ok (CreateResult.many
          [⟨"asdf", 1, "key", "endpoint"⟩, ⟨"asdf", 2, "key", "endpoint"⟩,
           ⟨"asdf", 3, "key", "endpoint"⟩])
    ∧ ((WindmillClient.mk "key" "endpoint").create_experiment
        "some experiment" [] none
        ⟨true, "", JValue.jObj [("work_units", JValue.jArr
          [work_unit_descr ("asdf", 25)])]⟩).value
      = .ok (CreateResult.single ⟨"asdf", 25, "key", "endpoint"⟩) :=
  ⟨(C1_create_experiment_result_shape (WindmillClient.mk "key" "endpoint")
      "some experiment" [] none
      ⟨true, "", JValue.jObj [("work_units", JValue.jArr
        [work_unit_descr ("asdf", 1), work_unit_descr ("asdf", 2),
         work_unit_descr ("asdf", 3)])]⟩
      [("asdf", 1), ("asdf", 2), ("asdf", 3)] rfl rfl).2 (by decide),
   (C1_create_experiment_result_shape (WindmillClient.mk "key" "endpoint")
      "some experiment" [] none
      ⟨true, "", JValue.jObj [("work_units", JValue.jArr
        [work_unit_descr ("asdf", 25)])]⟩
      [("asdf", 25)] rfl rfl).1 ("asdf", 25) rfl⟩

/-- C8: `check_signal_active(signal, deactivate=True)` sends one GET whose
parameters are exactly `{api_key, xid, wid, signal, clear: True}`, and on
an ok response whose `active` field is the boolean `b` the call returns
`b`. -/
theorem C8_check_signal_active_clear (wu : WorkUnit) (signal : String)
    (r : HttpResponse) :
    (wu.check_signal_active signal true r).requests
      = [HttpRequest.get (wu.endpoint ++ "/api/v0/check_signal_active")
          [("api_key", JValue.jStr wu.api_key), ("xid", JValue.jStr wu.xid),
           ("wid", JValue.jNum wu.wid), ("signal", JValue.jStr signal),
           ("clear", JValue.jBool true)]]
    ∧ (∀ b : Bool, r.ok = true → jGet r.json "active" = some (JValue.jBool b) →
        (wu.check_signal_active signal true r).value = .ok (JValue.jBool b)) := by
  constructor
  · rfl
  · intro b hok hact
    simp [WorkUnit.check_signal_active, _raise_if_error, hok, hact]

theorem C8_check_signal_active_clear_witness :
    ((WorkUnit.mk "xid" 123 "key" "endpoint").check_signal_active "sig" true
        ⟨true, "", JValue.jObj [("active", JValue.jBool true)]⟩).requests
      = [HttpRequest.get "endpoint/api/v0/check_signal_active"
          [("api_key", JValue.jStr "key"), ("xid", JValue.jStr "xid"),
           ("wid", JValue.jNum 123), ("signal", JValue.jStr "sig"),
           ("clear", JValue.jBool true)]]
    ∧ ((WorkUnit.mk "xid" 123 "key" "endpoint").check_signal_active "sig" true
        ⟨true, "", JValue.jObj [("active", JValue.jBool true)]⟩).value
      = .ok (JValue.jBool true) :=
  ⟨(C8_check_signal_active_clear (WorkUnit.mk "xid" 123 "key" "endpoint")
      "sig" ⟨true, "", JValue.jObj [("active", JValue.jBool true)]⟩).1,
   (C8_check_signal_active_clear (WorkUnit.mk "xid" 123 "key" "endpoint")
      "sig" ⟨true, "", JValue.jObj [("active", JValue.jBool true)]⟩).2
      true rfl rfl⟩

/-- C9: no public operation mutates its receiver: the state of the
`WindmillClient` / `WorkUnit` instance after any call (the `post` field of
the call's effect, which transcribes every assignment to `self` in the
method body — the source has none outside `__init__`) equals the instance
before the call, so `api_key`, `endpoint`, `xid` and `wid` never change. -/
theorem C9_instances_immutable (c : WindmillClient) (wu : WorkUnit)
    (experiment_name : String) (tags : List String)
    (parameters : Option (List JValue)) (xid : String) (wid : Int)
    (verify_exists : Bool) (entry : String) (measurements : JValue)
    (signal : String) (deactivate : Bool) (filename contents : String)
    (r : HttpResponse) :
    (c.create_experiment experiment_name tags parameters r).post = c
    ∧ (c.get_work_unit xid wid verify_exists r).post = c
    ∧ (wu.get_parameters r).post = wu
    ∧ (wu.add_diary_entry entry r).post = wu
    ∧ (wu.record_measurements measurements r).post = wu
    ∧ (wu.complete r).post = wu
    ∧ (wu.complete_experiment r).post = wu
    ∧ (wu.register_signal signal r).post = wu
    ∧ (wu.activate_signal signal r).post = wu
    ∧ (wu.deactivate_signal signal r).post = wu
    ∧ (wu.check_signal_active signal deactivate r).post = wu
    ∧ (wu.create_artifact filename contents r).post = wu
    ∧ (wu.create_artifact_from_file filename contents r).post = wu
    ∧ (wu.create_artifact_from_directory filename contents r).post = wu := by
  refine ⟨?_, ?_, rfl, rfl, rfl, rfl, rfl, rfl, rfl, rfl, rfl, rfl, rfl, rfl⟩
  · rfl
  · cases verify_exists <;> rfl

/-- C4: every operation that reaches the transport raises
`WindmillClientError` carrying the raw response body `r.text` verbatim
when the response status is not ok, on both GET and POST paths; on an ok
status no transport error is raised — the only `WindmillClientError`
possible on an ok status is `get_work_unit`'s descriptive
does-not-exist message. -/
theorem C4_http_error_propagation (c : WindmillClient) (wu : WorkUnit)
    (experiment_name : String) (tags : List String)
    (parameters : Option (List JValue)) (xid : String) (wid : Int)
    (entry : String) (measurements : JValue) (signal : String)
    (deactivate : Bool) (filename contents : String) (r : HttpResponse) :
    (r.ok = false →
      (c.create_experiment experiment_name tags parameters r).value
        = .error (.windmillClientError r.text)
      ∧ (c.get_work_unit xid wid true r).value
        = .error (.windmillClientError r.text)
      ∧ (wu.get_parameters r).value = .error (.windmillClientError r.text)
      ∧ (wu.add_diary_entry entry r).value
        = .error (.windmillClientError r.text)
      ∧ (wu.record_measurements measurements r).value
        = .error (.windmillClientError r.text)
      ∧ (wu.complete r).value = .error (.windmillClientError r.text)
      ∧ (wu.register_signal signal r).value
        = .error (.windmillClientError r.text)
      ∧ (wu.activate_signal signal r).value
        = .error (.windmillClientError r.text)
      ∧ (wu.deactivate_signal signal r).value
        = .error (.windmillClientError r.text)
      ∧ (wu.check_signal_active signal deactivate r).value
        = .error (.windmillClientError r.text)
      ∧ (wu.create_artifact filename contents r).value
        = .error (.windmillClientError r.text))
    ∧ (r.ok = true →
      (∀ m, (c.create_experiment experiment_name tags parameters r).value
        ≠ .error (.windmillClientError m))
      ∧ (∀ m, (c.get_work_unit xid wid true r).value
          = .error (.windmillClientError m) →
        m = "A work unit corresponding to " ++ xid ++ "/" ++ toString wid
          ++ " does not exist.")
      ∧ (wu.get_parameters r).value = .ok r.json
      ∧ (wu.add_diary_entry entry r).value = .ok ()
      ∧ (wu.record_measurements measurements r).value = .ok ()
      ∧ (wu.complete r).value = .ok ()
      ∧ (wu.register_signal signal r).value = .ok ()
      ∧ (wu.activate_signal signal r).value = .ok ()
      ∧ (wu.deactivate_signal signal r).value = .ok ()
      ∧ (∀ m, (wu.check_signal_active signal deactivate r).value
        ≠ .error (.windmillClientError m))
      ∧ (wu.create_artifact filename contents r).value = .ok ()) := by
  constructor
  · intro hok
    refine ⟨?_, ?_, ?_, ?_, ?_, ?_, ?_, ?_, ?_, ?_, ?_⟩ <;>
      simp [WindmillClient.create_experiment, WindmillClient.get_work_unit,
        WorkUnit.get_parameters, WorkUnit.add_diary_entry,
        WorkUnit.record_measurements, WorkUnit.complete,
        WorkUnit.register_signal, WorkUnit.activate_signal,
        WorkUnit.deactivate_signal, WorkUnit.check_signal_active,
        WorkUnit.create_artifact, _raise_if_error, hok]
  · intro hok
    refine ⟨?_, ?_, ?_, ?_, ?_, ?_, ?_, ?_, ?_, ?_, ?_⟩
    · intro m
      have hra : _raise_if_error r = Except.ok () := by
        simp [_raise_if_error, hok]
      simp only [WindmillClient.create_experiment, hra]
      rcases hget : jGet r.json "work_units" with _ | v
      · simp
      · rcases v with _ | b | n | s | wus | fs
        · simp
        · simp
        · simp
        · simp
        · rcases wus with _ | ⟨w, _ | ⟨w2, rest⟩⟩
          · simp [WindmillClient.parse_work_units, except_map_ok]
          · cases hp : WindmillClient.parse_work_unit c w with
            | ok u => simp [hp, except_map_ok]
            | error e =>
              simp only [hp, except_map_error]
              intro hcontra
              rw [Except.error.injEq] at hcontra
              exact parse_work_unit_not_client_error c w m
                (by rw [hp, hcontra])
          · cases hp : WindmillClient.parse_work_units c (w :: w2 :: rest) with
            | ok us => simp [hp, except_map_ok]
            | error e =>
              simp only [hp, except_map_error]
              intro hcontra
              rw [Except.error.injEq] at hcontra
              exact parse_work_units_not_client_error c (w :: w2 :: rest) m
                (by rw [hp, hcontra])
        · simp
    · intro m
      have hra : _raise_if_error r = Except.ok () := by
        simp [_raise_if_error, hok]
      simp only [WindmillClient.get_work_unit, hra]
      rcases hget : jGet r.json "exists" with _ | v
      · simp
      · by_cases htr : jTruthy v = true
        · simp [htr]
        · simp only [Bool.not_eq_true] at htr
          simp [htr]
          intro h
          exact h.symm
    · simp [WorkUnit.get_parameters, _raise_if_error, hok]
    · simp [WorkUnit.add_diary_entry, _raise_if_error, hok]
    · simp [WorkUnit.record_measurements, _raise_if_error, hok]
    · simp [WorkUnit.complete, _raise_if_error, hok]
    · simp [WorkUnit.register_signal, _raise_if_error, hok]
    · simp [WorkUnit.activate_signal, _raise_if_error, hok]
    · simp [WorkUnit.deactivate_signal, _raise_if_error, hok]
    · intro m
      have hra : _raise_if_error r = Except.ok () := by
        simp [_raise_if_error, hok]
      simp only [WorkUnit.check_signal_active, hra]
      rcases jGet r.json "active" with _ | v <;> simp
    · simp [WorkUnit.create_artifact, _raise_if_error, hok]

theorem C4_http_error_propagation_witness :
    ((WorkUnit.mk "xid" 1 "key" "endpoint").get_parameters
        ⟨false, "boom", JValue.jObj []⟩).value
      = .error (.windmillClientError "boom")
    ∧ ((WorkUnit.mk "xid" 1 "key" "endpoint").get_parameters
        ⟨true, "", JValue.jObj [("rate", JValue.jNum 4)]⟩).value
      = .ok (JValue.jObj [("rate", JValue.jNum 4)]) :=
  ⟨((C4_http_error_propagation ⟨"key", "endpoint"⟩ ⟨"xid", 1, "key", "endpoint"⟩
      "e" [] none "x" 1 "d" (JValue.jObj []) "s" false "f" "c"
      ⟨false, "boom", JValue.jObj []⟩).1 rfl).2.2.1,
   ((C4_http_error_propagation ⟨"key", "endpoint"⟩ ⟨"xid", 1, "key", "endpoint"⟩
      "e" [] none "x" 1 "d" (JValue.jObj []) "s" false "f" "c"
      ⟨true, "", JValue.jObj [("rate", JValue.jNum 4)]⟩).2 rfl).2.2.1⟩
